import Mathlib

/-!
Verification development for the collaborative map engine in
`routerlicious/src/api/map.ts` (class `Map` and its wire types).

The engine state is embedded shallowly: the mutable fields of the TS class
become a Lean structure, each method becomes a state-passing function, and
the interaction with the delta transport is made explicit through a `World`
that carries, next to the engine, the transport service, the list of
messages handed to `DeltaManager.submitOp` (the outbox), and the submit
continuations that are parked at an `await` inside `submit` (the JS event
loop runs them later, see `resumePending`).
-/

namespace MapCrdt

/-- Payload universe for the untyped (`any`) value positions of the wire
shapes.  `collab` holds an `ICollaborativeMapValue`, the record the source
stores under a `"Collaborative"` type tag. -/
inductive JSValue where
  | undef : JSValue
  | str : String → JSValue
  | num : Int → JSValue
  | collab : String → String → JSValue
deriving DecidableEq, Repr

/-- ICollaborativeMapValue: the serialized pointer to a nested collaborative
object (`{ type, id }` in the source). -/
structure ICollaborativeMapValue where
  type : String
  id : String
deriving DecidableEq, Repr

/-- Reads a `JSValue` as an `ICollaborativeMapValue`, modelling the unchecked
TS cast `value.value as ICollaborativeMapValue`; on a non-reference payload
the fields read back as JS `undefined`, rendered as the string produced by
property-name coercion.  Unreachable for values written by `set`. -/
def asCollabMapValue : JSValue → ICollaborativeMapValue
  | .collab ty cid => { type := ty, id := cid }
  | _ => { type := "undefined", id := "undefined" }

/-- `ValueType[ValueType.Collaborative]` — the TS reverse enum mapping yields
the enum member's name as a string. -/
def ValueTypeCollaborative : String := "Collaborative"

/-- `ValueType[ValueType.Plain]`. -/
def ValueTypePlain : String := "Plain"

/-- IMapValue: a stored value, `{ type, value }`. -/
structure IMapValue where
  type : String
  value : JSValue
deriving DecidableEq, Repr

/-- IMapOperation: a map delta operation, `{ type, key?, value? }`. -/
structure IMapOperation where
  type : String
  key : Option String := none
  value : Option IMapValue := none
deriving DecidableEq, Repr

/-- api.IMessage as used here: `{ clientSequenceNumber,
referenceSequenceNumber, op }`. -/
structure IMessage where
  clientSequenceNumber : Nat
  referenceSequenceNumber : Nat
  op : IMapOperation
deriving DecidableEq, Repr

/-- api.ISequencedMessage (with the api.IBase fields): the server overlay
`{ sequenceNumber, minimumSequenceNumber, clientId, type }` on top of the
client message fields. -/
structure ISequencedMessage where
  sequenceNumber : Nat
  minimumSequenceNumber : Nat
  clientSequenceNumber : Nat
  clientId : String
  type : String
  op : IMapOperation
deriving DecidableEq, Repr

/-- Modelled from the spec: `api.OperationType`, the message-kind tag that
marks an inbound sequenced message as carrying an operation (the api module
is not part of the sources at hand; only the dichotomy
`type == OperationType` matters to the engine). -/
def OperationType : String := "op"

/-- Events emitted by the map (`valueChanged { key }` and `clear`). -/
inductive MapEvent where
  | valueChanged : String → MapEvent
  | clear : MapEvent
deriving DecidableEq, Repr

/-- Error outcomes of engine methods, named as in the specification's error
catalogue: `SequenceGap` is the `assert.equal` in `processRemoteMessage`,
`UnknownOperation` the `throw new Error("Unknown operation")` in
`processOperation`, `AlreadyAttached` the `assert.ok(!connection.existing)`
in `attach`, and `UnknownKind` a registry miss during reference decode. -/
inductive EngineError where
  | SequenceGap : EngineError
  | UnknownOperation : EngineError
  | AlreadyAttached : EngineError
  | UnknownKind : EngineError
deriving DecidableEq, Repr

/-- api.IDeltaConnection as read by the map: client identity plus the
`existing` flag returned by `connect`. -/
structure Connection where
  clientId : String
  existing : Bool
deriving DecidableEq, Repr

/-- A handle on a nested collaborative object as the map probes it: its id,
its type tag, and the current answer of its `isLocal()` (`localFlag`). -/
structure CollabHandle where
  id : String
  type : String
  localFlag : Bool
deriving DecidableEq, Repr

/-- Modelled from the spec: the delta notification service (§6), an external
collaborator.  `connect(id, kind)` reports whether the document already
exists and creates it — the source's comment in `attach` states "The connect
call should create the object". -/
structure Services where
  docs : List String
  clientId : String
deriving DecidableEq, Repr

/-- Modelled from the spec: `connect(id, kind) -> { existing, client_id }`;
the connected-to document exists afterwards. -/
def Services.connect (svc : Services) (id : String) : Connection × Services :=
  ({ clientId := svc.clientId, existing := svc.docs.contains id },
   { svc with docs := if svc.docs.contains id then svc.docs else id :: svc.docs })

/-- JS object property update: overwrite in place if the key is present,
append otherwise. -/
def setKey {α : Type} : List (String × α) → String → α → List (String × α)
  | [], k, v => [(k, v)]
  | (k2, v2) :: rest, k, v =>
      if k2 = k then (k2, v) :: rest else (k2, v2) :: setKey rest k v

/-- JS object property read. -/
def lookupKey {α : Type} : List (String × α) → String → Option α
  | [], _ => none
  | (k2, v) :: rest, k => if k2 = k then some v else lookupKey rest k

/-- JS `delete obj[key]`. -/
def removeKey {α : Type} (l : List (String × α)) (k : String) : List (String × α) :=
  l.filter (fun p => p.1 ≠ k)

/-- The mutable fields of `class Map`.  `data` is the Map State, `localOps`
the Operation Log, `collaborativeObjects` the nested object cache,
`registry` the set of kinds the registry has extensions for, `events` the
emitted-event stream and `consoleLog` the `console.log` output (both are
instrumentation of the source's observable effects). -/
structure MapObj where
  id : String
  registry : List String
  data : List (String × IMapValue)
  connection : Option Connection
  localOps : List IMessage
  sequenceNumber : Nat
  minimumSequenceNumber : Nat
  clientSequenceNumber : Nat
  collaborativeObjects : List (String × CollabHandle)
  events : List MapEvent
  consoleLog : List String
deriving DecidableEq, Repr

/-- Field initializer values of the class (`new Map(id)`, the local
constructor path where `services` is undefined and `loadingP` resolves
immediately). -/
def MapObj.create (id : String) : MapObj :=
  { id := id
    registry := []
    data := []
    connection := none
    localOps := []
    sequenceNumber := 0
    minimumSequenceNumber := 0
    clientSequenceNumber := 0
    collaborativeObjects := []
    events := []
    consoleLog := [] }

/-- The engine together with its environment: the transport service, the
messages handed to `DeltaManager.submitOp` in order (outbox), and the
`submit` continuations currently parked at the `await collabObject.attach`
suspension point inside `submit`. -/
structure World where
  map : MapObj
  services : Services
  outbox : List IMessage
  pending : List IMessage
deriving DecidableEq, Repr

/-- A freshly created local map (`new Map(id)`) next to the service it will
later be attached to. -/
def World.create (id : String) (svc : Services) : World :=
  { map := MapObj.create id, services := svc, outbox := [], pending := [] }

/-- `setCore`: overwrite the slot, then emit `valueChanged`. -/
def setCore (st : MapObj) (key : String) (value : IMapValue) : MapObj :=
  { st with data := setKey st.data key value
            events := st.events ++ [.valueChanged key] }

/-- `clearCore`: replace the data object with a fresh empty one, then emit
`clear`. -/
def clearCore (st : MapObj) : MapObj :=
  { st with data := [], events := st.events ++ [.clear] }

/-- `deleteCore`: remove the slot (a no-op on a missing key), then emit
`valueChanged`. -/
def deleteCore (st : MapObj) (key : String) : MapObj :=
  { st with data := removeKey st.data key
            events := st.events ++ [.valueChanged key] }

/-- `processOperation`: dispatch on `op.type`; an unknown type throws
"Unknown operation".  A missing `op.key` dereferences as the JS property
name `"undefined"`; a `set` without a value (never produced by the engine)
is surfaced as the same schema-violation error. -/
def processOperation (st : MapObj) (op : IMapOperation) :
    MapObj × Option EngineError :=
  if op.type = "clear" then
    (clearCore st, none)
  else if op.type = "delete" then
    (deleteCore st (op.key.getD "undefined"), none)
  else if op.type = "set" then
    match op.value with
    | some v => (setCore st (op.key.getD "undefined") v, none)
    | none => (st, some .UnknownOperation)
  else
    (st, some .UnknownOperation)

/-- The test `submit` performs before the `await`: is this a `set` of a
`Collaborative` value whose cached nested object is still local?  A cache
miss (impossible for messages built by `set`, which registers the handle)
reads as not-local. -/
def needsNestedAttach (st : MapObj) (message : IMessage) : Bool :=
  match message.op.value with
  | some v =>
      message.op.type == "set" && v.type == ValueTypeCollaborative &&
        (match lookupKey st.collaborativeObjects (asCollabMapValue v.value).id with
         | some h => h.localFlag
         | none => false)
  | none => false

/-- `submit`: when the value references a still-local nested object the
method suspends at `await collabObject.attach(...)` — the message parks as a
pending continuation; otherwise `deltaManager.submitOp(message)` runs
synchronously, appending to the outbox. -/
def submit (w : World) (message : IMessage) : World :=
  if needsNestedAttach w.map message then
    { w with pending := w.pending ++ [message] }
  else
    { w with outbox := w.outbox ++ [message] }

/-- Marks the cached handle attached (its `isLocal()` now answers false). -/
def markAttached (l : List (String × CollabHandle)) (cid : String) :
    List (String × CollabHandle) :=
  l.map (fun p => if p.1 = cid then (p.1, { p.2 with localFlag := false }) else p)

/-- The event loop resumes the oldest parked `submit` continuation: the
awaited nested `attach` completes (the cached handle is no longer local) and
then `deltaManager.submitOp(message)` runs. -/
def resumePending (w : World) : World :=
  match w.pending with
  | [] => w
  | message :: rest =>
      let st :=
        match message.op.value with
        | some v =>
            { w.map with collaborativeObjects :=
                markAttached w.map.collaborativeObjects (asCollabMapValue v.value).id }
        | none => w.map
      { w with map := st, pending := rest, outbox := w.outbox ++ [message] }

/-- `processLocalOperation`: build the message with the current client
sequence number (post-increment), push it on the Operation Log, submit if
connected, then apply the operation optimistically. -/
def processLocalOperation (w : World) (op : IMapOperation) :
    World × Option EngineError :=
  let st := w.map
  let message : IMessage :=
    { clientSequenceNumber := st.clientSequenceNumber
      referenceSequenceNumber := st.sequenceNumber
      op := op }
  let st := { st with clientSequenceNumber := st.clientSequenceNumber + 1
                      localOps := st.localOps ++ [message] }
  let w := { w with map := st }
  let w := if st.connection.isSome then submit w message else w
  let r := processOperation w.map op
  ({ w with map := r.1 }, r.2)

/-- A user-supplied value at the `set`/`get` boundary: either a plain value
or a live collaborative object (the source probes for the
`__collaborativeObject__` marker). -/
inductive UserValue where
  | plain : JSValue → UserValue
  | collabObject : CollabHandle → UserValue
deriving DecidableEq, Repr

/-- `set`: encode the value — a collaborative object is registered in the
nested object cache and stored as a `Collaborative` reference, anything else
as `Plain` — and run the local-operation path. -/
def set (w : World) (key : String) (value : UserValue) :
    World × Option EngineError :=
  match value with
  | .collabObject co =>
      let st := { w.map with collaborativeObjects := setKey w.map.collaborativeObjects co.id co }
      let operationValue : IMapValue :=
        { type := ValueTypeCollaborative, value := .collab co.type co.id }
      processLocalOperation { w with map := st }
        { type := "set", key := some key, value := some operationValue }
  | .plain v =>
      let operationValue : IMapValue := { type := ValueTypePlain, value := v }
      processLocalOperation w
        { type := "set", key := some key, value := some operationValue }

/-- `delete`: run the local-operation path on a `delete` op. -/
def delete (w : World) (key : String) : World × Option EngineError :=
  processLocalOperation w { type := "delete", key := some key }

/-- `clear`: run the local-operation path on a `clear` op. -/
def clear (w : World) : World × Option EngineError :=
  processLocalOperation w { type := "clear" }

/-- `get`: absent key reads as undefined; a `Collaborative` value resolves
through the nested object cache, materializing (and caching) through the
registry on a miss — a missing extension is the specification's
`UnknownKind`; a plain value reads back its payload. -/
def get (st : MapObj) (key : String) :
    Except EngineError (Option UserValue) × MapObj :=
  match lookupKey st.data key with
  | none => (.ok none, st)
  | some value =>
      if value.type = ValueTypeCollaborative then
        let collabMapValue := asCollabMapValue value.value
        match lookupKey st.collaborativeObjects collabMapValue.id with
        | some h => (.ok (some (.collabObject h)), st)
        | none =>
            if st.registry.contains collabMapValue.type then
              let h : CollabHandle :=
                { id := collabMapValue.id, type := collabMapValue.type, localFlag := false }
              (.ok (some (.collabObject h)),
               { st with collaborativeObjects :=
                   setKey st.collaborativeObjects collabMapValue.id h })
            else (.error .UnknownKind, st)
      else
        (.ok (some (.plain value.value)), st)

/-- `has`: containment check on the data object. -/
def has (st : MapObj) (key : String) : Bool :=
  (lookupKey st.data key).isSome

/-- `keys`: `_.keys(this.data)`. -/
def keys (st : MapObj) : List String :=
  st.data.map (fun p => p.1)

/-- `isLocal`: `!this.connection`. -/
def isLocal (st : MapObj) : Bool :=
  st.connection.isNone

/-- The snapshot blob, `{ sequenceNumber, snapshot }`. -/
structure ISnapshot where
  sequenceNumber : Nat
  snapshot : List (String × IMapValue)
deriving DecidableEq, Repr

/-- `snapshot`: the blob handed to `objectStorageService.write` —
`{ sequenceNumber: this.sequenceNumber, snapshot: _.clone(this.data) }`.
Entry-level content of the blob; the store-level aliasing consequences of
`_.clone` are analysed in the `Store` namespace below. -/
def snapshot (st : MapObj) : ISnapshot :=
  { sequenceNumber := st.sequenceNumber, snapshot := st.data }

/-- `attach(services, registry)`: store the services and registry, connect
(which assigns `this.connection` before anything is checked), assert that
the document did not already exist, then submit every entry of the
Operation Log in order (fire-and-forget: each `submit` may park). -/
def attach (w : World) (registry : List String) : World × Option EngineError :=
  let st := { w.map with registry := registry }
  let c := Services.connect w.services st.id
  let st := { st with connection := some c.1 }
  let w := { w with map := st, services := c.2 }
  if c.1.existing then
    (w, some .AlreadyAttached)
  else
    (st.localOps.foldl (fun acc m => submit acc m) w, none)

/-- The constructor path with services (`loadingP = this.load(id, services)`):
connect, read the stored blob when the document exists (absence parses as
`{ sequenceNumber: 0, snapshot: {} }`), install data and sequence number.
The storage read is modelled from the spec (§6 object storage) as the
optional blob `stored`. -/
def load (id : String) (svc : Services) (registry : List String)
    (stored : Option ISnapshot) : World :=
  let c := Services.connect svc id
  let snap : ISnapshot :=
    if c.1.existing then
      stored.getD { sequenceNumber := 0, snapshot := [] }
    else { sequenceNumber := 0, snapshot := [] }
  { map := { MapObj.create id with
               registry := registry
               data := snap.snapshot
               sequenceNumber := snap.sequenceNumber
               connection := some c.1 }
    services := c.2
    outbox := []
    pending := [] }

/-- `processRemoteOperation`: an echo of one of our own messages retires the
log head exactly when the head's client sequence number matches (never
reapplied); a mismatch or empty log only logs a duplicate-ack line; a
message from another client is applied to Map State.  The method is only
reachable once `listenForUpdates` has run, hence after `this.connection` is
assigned; the `none` branch is dead code kept for totality. -/
def processRemoteOperation (w : World) (message : ISequencedMessage) :
    World × Option EngineError :=
  let st := w.map
  match st.connection with
  | none => (w, none)
  | some connection =>
      if message.clientId = connection.clientId then
        match st.localOps with
        | m :: rest =>
            if m.clientSequenceNumber = message.clientSequenceNumber then
              ({ w with map := { st with localOps := rest } }, none)
            else
              ({ w with map := { st with consoleLog := st.consoleLog ++
                   ["Duplicate ack received " ++ toString message.clientSequenceNumber] } },
               none)
        | [] =>
            ({ w with map := { st with consoleLog := st.consoleLog ++
                 ["Duplicate ack received " ++ toString message.clientSequenceNumber] } },
             none)
      else
        let r := processOperation st message.op
        ({ w with map := r.1 }, r.2)

/-- `processRemoteMessage`: assert the adjacency invariant
`this.sequenceNumber + 1 == message.sequenceNumber` (a violation throws
before any mutation), update the sequence numbers, and route operation
messages on to `processRemoteOperation`. -/
def processRemoteMessage (w : World) (message : ISequencedMessage) :
    World × Option EngineError :=
  if message.sequenceNumber = w.map.sequenceNumber + 1 then
    let st := { w.map with sequenceNumber := message.sequenceNumber
                           minimumSequenceNumber := message.minimumSequenceNumber }
    let w := { w with map := st }
    if message.type = OperationType then processRemoteOperation w message
    else (w, none)
  else
    (w, some .SequenceGap)

namespace Store

/-!
Store-level rendering of the Map State primitives and of `snapshot`.  In
JavaScript `this.data` and the `_.clone` blob are heap objects; whether a
later mutation of Map State reaches the written blob is a question about
aliasing, which the value-level model above cannot ask.  Here the dictionary
objects live in an explicit heap and `this.data` and the blob hold
references into it; the entry-level behaviour of each primitive is the same
as in the value-level model.
-/

/-- The heap of plain-object dictionaries, addressed by allocation order. -/
structure Heap where
  size : Nat
  mem : Nat → List (String × IMapValue)

/-- Dereference a dictionary. -/
def Heap.read (h : Heap) (r : Nat) : List (String × IMapValue) :=
  h.mem r

/-- Overwrite the dictionary behind a reference. -/
def Heap.write (h : Heap) (r : Nat) (d : List (String × IMapValue)) : Heap :=
  { h with mem := fun i => if i = r then d else h.mem i }

/-- Allocate a fresh dictionary.  The returned reference is distinct from
every reference already handed out. -/
def Heap.alloc (h : Heap) (d : List (String × IMapValue)) : Heap × Nat :=
  ({ size := h.size + 1, mem := fun i => if i = h.size then d else h.mem i }, h.size)

/-- The map as the snapshot path sees it: the `this.data` reference and the
current sequence number. -/
structure MapStore where
  heap : Heap
  dataRef : Nat
  sequenceNumber : Nat

/-- `setCore` at store level: write the slot through `this.data`. -/
def setCore (s : MapStore) (key : String) (value : IMapValue) : MapStore :=
  { s with heap := s.heap.write s.dataRef (setKey (s.heap.read s.dataRef) key value) }

/-- `deleteCore` at store level: remove the slot through `this.data`. -/
def deleteCore (s : MapStore) (key : String) : MapStore :=
  { s with heap := s.heap.write s.dataRef (removeKey (s.heap.read s.dataRef) key) }

/-- `clearCore` at store level: `this.data = {}` rebinds the field to a
fresh empty object; the old dictionary is not touched. -/
def clearCore (s : MapStore) : MapStore :=
  let c := s.heap.alloc []
  { s with heap := c.1, dataRef := c.2 }

/-- The snapshot blob at store level: it holds a reference to the clone. -/
structure ISnapshotRef where
  sequenceNumber : Nat
  snapshot : Nat

/-- `snapshot` at store level: `_.clone(this.data)` allocates a fresh
dictionary holding the same entries, and the blob records that reference
together with the current sequence number. -/
def writeSnapshot (s : MapStore) : ISnapshotRef × MapStore :=
  let c := s.heap.alloc (s.heap.read s.dataRef)
  ({ sequenceNumber := s.sequenceNumber, snapshot := c.2 }, { s with heap := c.1 })

/-- A Map State mutation, local or remote: every path into Map State ends in
one of the three core primitives. -/
inductive MutAction where
  | setA : String → IMapValue → MutAction
  | deleteA : String → MutAction
  | clearA : MutAction

/-- Run one mutation. -/
def applyMut (s : MapStore) : MutAction → MapStore
  | .setA k v => setCore s k v
  | .deleteA k => deleteCore s k
  | .clearA => clearCore s

/-- Run a sequence of mutations. -/
def applyMuts (s : MapStore) (acts : List MutAction) : MapStore :=
  acts.foldl applyMut s

end Store

/-- The suspension structure of a public method: its first statement either
awaits `this.loadingP` before the body runs, or the body runs at once on the
state at call time. -/
inductive LoadGate (σ : Type) (α : Type) where
  | awaitLoadThen : (σ → α) → LoadGate σ α
  | immediate : (σ → α) → LoadGate σ α

/-- Whether the method suspends at entry awaiting the initial load. -/
def LoadGate.awaitsInitialLoad {σ α : Type} : LoadGate σ α → Bool
  | .awaitLoadThen _ => true
  | .immediate _ => false

/-- Run a method that was invoked while the initial load was still in
flight: `pre` is the state at call time (field initializer values, the
snapshot not yet installed), `loaded` the state once the load has
completed.  A gated body observes `loaded`; an ungated body observes
`pre`. -/
def LoadGate.observe {σ α : Type} : LoadGate σ α → σ → σ → α
  | .awaitLoadThen f, _, loaded => f loaded
  | .immediate f, pre, _ => f pre

/-- `keys` begins with `await this.loadingP`. -/
def keysGate : LoadGate MapObj (List String) :=
  .awaitLoadThen keys

/-- `get` begins with `await this.loadingP`. -/
def getGate (key : String) : LoadGate MapObj (Except EngineError (Option UserValue) × MapObj) :=
  .awaitLoadThen (fun st => get st key)

/-- `has` begins with `await this.loadingP`. -/
def hasGate (key : String) : LoadGate MapObj Bool :=
  .awaitLoadThen (fun st => has st key)

/-- `set` begins with `await this.loadingP`. -/
def setGate (key : String) (value : UserValue) : LoadGate World (World × Option EngineError) :=
  .awaitLoadThen (fun w => set w key value)

/-- `delete` begins with `await this.loadingP`. -/
def deleteGate (key : String) : LoadGate World (World × Option EngineError) :=
  .awaitLoadThen (fun w => delete w key)

/-- `clear` begins with `await this.loadingP`. -/
def clearGate : LoadGate World (World × Option EngineError) :=
  .awaitLoadThen clear

/-- `snapshot` does not await `this.loadingP`: its body reads
`this.sequenceNumber` and `this.data` at call time. -/
def snapshotGate : LoadGate MapObj ISnapshot :=
  .immediate snapshot

/-- One step a caller (or the event loop) can take against a map instance:
the public mutators, `attach`, delivery of an inbound sequenced message, and
resumption of a parked submission. -/
inductive MapAction where
  | setA : String → UserValue → MapAction
  | deleteA : String → MapAction
  | clearA : MapAction
  | attachA : List String → MapAction
  | deliverA : ISequencedMessage → MapAction
  | resumeA : MapAction
deriving DecidableEq, Repr

/-- Whether the action is an `attach` call. -/
def MapAction.isAttach : MapAction → Bool
  | .attachA _ => true
  | _ => false

/-- Run one action (errors are returned to the caller; the engine state the
call left behind is kept). -/
def runAction (w : World) : MapAction → World
  | .setA k v => (set w k v).1
  | .deleteA k => (delete w k).1
  | .clearA => (clear w).1
  | .attachA r => (attach w r).1
  | .deliverA m => (processRemoteMessage w m).1
  | .resumeA => resumePending w

/-- Run a sequence of actions. -/
def runTrace (w : World) (tr : List MapAction) : World :=
  tr.foldl runAction w

/-!  Concrete instances used to exercise the model. -/

/-- A transport service with no documents yet. -/
def svcA : Services := { docs := [], clientId := "client-a" }

/-- A plain `set a := 1` operation. -/
def opSetA1 : IMapOperation :=
  { type := "set", key := some "a"
    value := some { type := ValueTypePlain, value := .num 1 } }

/-- The pending message for `opSetA1`, client sequence number 0. -/
def mAck : IMessage :=
  { clientSequenceNumber := 0, referenceSequenceNumber := 0, op := opSetA1 }

/-- An attached map that has optimistically applied `opSetA1` and holds its
message in the Operation Log. -/
def wAck : World :=
  { map := { MapObj.create "m1" with
               connection := some { clientId := "client-a", existing := false }
               localOps := [mAck]
               clientSequenceNumber := 1
               data := [("a", { type := ValueTypePlain, value := .num 1 })]
               events := [.valueChanged "a"] }
    services := { docs := ["m1"], clientId := "client-a" }
    outbox := [mAck]
    pending := [] }

/-- The server echo of `mAck`: same client, matching client sequence
number, server sequence 1. -/
def msgEcho : ISequencedMessage :=
  { sequenceNumber := 1, minimumSequenceNumber := 0, clientSequenceNumber := 0
    clientId := "client-a", type := OperationType, op := opSetA1 }

/-- An inbound message with a gapped sequence number. -/
def msgGapped : ISequencedMessage :=
  { sequenceNumber := 5, minimumSequenceNumber := 0, clientSequenceNumber := 0
    clientId := "client-a", type := OperationType, op := opSetA1 }

/-- An inbound non-operation control message with the correct next sequence
number. -/
def msgNoop : ISequencedMessage :=
  { sequenceNumber := 1, minimumSequenceNumber := 1, clientSequenceNumber := 7
    clientId := "server", type := "noop", op := opSetA1 }

/-- A still-local nested collaborative object handle. -/
def nHandle : CollabHandle :=
  { id := "n", type := "https://graph.microsoft.com/types/map", localFlag := true }

/-- C4 scenario, step 0: a freshly attached map. -/
def w4a : World := (attach (World.create "m4" svcA) []).1

/-- C4 scenario, step 1: `set("a", N)` where `N` is the still-local nested
object — `submit` suspends at `await N.attach(...)`. -/
def w4b : World := (set w4a "a" (.collabObject nHandle)).1

/-- C4 scenario, step 2: `set("b", 2)` issued while the first submission is
still suspended. -/
def w4c : World := (set w4b "b" (.plain (.num 2))).1

/-- C4 scenario, step 3: the nested attach resolves and the parked
submission completes. -/
def w4d : World := resumePending w4c

/-- C6 scenario, step 0: a local map. -/
def w6a : World := World.create "m6" svcA

/-- C6 scenario, step 1: `set("a", N)` while local (nothing submitted). -/
def w6b : World := (set w6a "a" (.collabObject nHandle)).1

/-- C6 scenario, step 2: `set("b", 2)` while local. -/
def w6c : World := (set w6b "b" (.plain (.num 2))).1

/-- C6 scenario, step 3: `attach` drains the Operation Log — the first
entry's submission suspends at the nested attach, the second completes. -/
def w6d : World := (attach w6c []).1

/-- C6 scenario, step 4: the nested attach resolves and the parked
submission completes. -/
def w6e : World := resumePending w6d

/-- A map attached through `attach` (used to call `attach` a second time). -/
def wAttached : World := (attach (World.create "m5" svcA) []).1

/-- A store whose data dictionary lives at reference 0 and holds one
entry, taken at sequence number 5. -/
def store7 : Store.MapStore :=
  { heap := { size := 1, mem := fun _ => [("a", { type := ValueTypePlain, value := .str "v" })] }
    dataRef := 0
    sequenceNumber := 5 }

/-- A mutation burst: overwrite, delete, clear, insert. -/
def acts7 : List Store.MutAction :=
  [ .setA "a" { type := ValueTypePlain, value := .str "w" }
  , .deleteA "a"
  , .clearA
  , .setA "b" { type := ValueTypePlain, value := .num 3 } ]

/-- A stored snapshot blob for an existing document. -/
def storedBlob8 : ISnapshot :=
  { sequenceNumber := 5
    snapshot := [("x", { type := ValueTypePlain, value := .str "y" })] }

/-- A service on which document `doc8` already exists. -/
def svc8 : Services := { docs := ["doc8"], clientId := "c8" }

/-- The map object between construction against `svc8` and completion of
the initial load: every field still holds its initializer value. -/
def preLoad8 : MapObj := MapObj.create "doc8"

/-- The same map once the initial load has installed the stored blob. -/
def loaded8 : MapObj := (load "doc8" svc8 [] (some storedBlob8)).map

/-- The references and contents the snapshot blob must keep seeing: blob
reference `r` still dereferences to `d`, and the live `this.data` reference
is a different object inside the heap. -/
def Store.blobSeparation (r : Nat) (d : List (String × IMapValue))
    (t : Store.MapStore) : Prop :=
  t.heap.read r = d ∧ t.dataRef ≠ r ∧ r < t.heap.size ∧ t.dataRef < t.heap.size

/-!  Helper lemmas about the embedding. -/

theorem lookupKey_setKey_self {α : Type} (l : List (String × α)) (k : String) (v : α) :
    lookupKey (setKey l k v) k = some v := by
  induction l with
  | nil => simp [setKey, lookupKey]
  | cons p rest ih =>
      by_cases h : p.1 = k
      · simp [setKey, lookupKey, h]
      · simp [setKey, lookupKey, h, ih]

theorem lookupKey_removeKey_self {α : Type} (l : List (String × α)) (k : String) :
    lookupKey (removeKey l k) k = none := by
  induction l with
  | nil => rfl
  | cons p rest ih =>
      by_cases h : p.1 = k
      · simpa [removeKey, List.filter_cons, h] using ih
      · simpa [removeKey, List.filter_cons, h, lookupKey] using ih

theorem submit_map (w : World) (m : IMessage) : (submit w m).map = w.map := by
  unfold submit
  split <;> rfl

theorem foldl_submit_map (l : List IMessage) (w : World) :
    (l.foldl (fun acc m => submit acc m) w).map = w.map := by
  induction l generalizing w with
  | nil => rfl
  | cons m rest ih => simp [List.foldl_cons, ih, submit_map]

theorem processOperation_set_eq (st : MapObj) (k : String) (v : IMapValue) :
    processOperation st { type := "set", key := some k, value := some v }
      = (setCore st k v, none) := by
  have h1 : ¬ (("set" : String) = "clear") := by decide
  have h2 : ¬ (("set" : String) = "delete") := by decide
  simp [processOperation, h1, h2]

theorem processOperation_delete_eq (st : MapObj) (k : String) :
    processOperation st { type := "delete", key := some k }
      = (deleteCore st k, none) := by
  have h1 : ¬ (("delete" : String) = "clear") := by decide
  simp [processOperation, h1]

theorem processOperation_clear_eq (st : MapObj) :
    processOperation st { type := "clear" } = (clearCore st, none) := by
  simp [processOperation]

theorem processOperation_frame (st : MapObj) (op : IMapOperation) :
    (processOperation st op).1.connection = st.connection
    ∧ (processOperation st op).1.sequenceNumber = st.sequenceNumber
    ∧ (processOperation st op).1.localOps = st.localOps
    ∧ (processOperation st op).2 ≠ some .SequenceGap := by
  unfold processOperation
  by_cases h1 : op.type = "clear"
  · simp [h1, clearCore]
  · by_cases h2 : op.type = "delete"
    · simp [h1, h2, deleteCore]
    · by_cases h3 : op.type = "set"
      · cases hv : op.value with
        | none => simp [h1, h2, h3, hv]
        | some v => simp [h1, h2, h3, hv, setCore]
      · simp [h1, h2, h3]

theorem processLocalOperation_fst_map (w : World) (op : IMapOperation) :
    (processLocalOperation w op).1.map =
      (processOperation
        { w.map with
            clientSequenceNumber := w.map.clientSequenceNumber + 1
            localOps := w.map.localOps ++
              [{ clientSequenceNumber := w.map.clientSequenceNumber
                 referenceSequenceNumber := w.map.sequenceNumber
                 op := op }] } op).1 := by
  simp only [processLocalOperation]
  split <;> simp [submit_map]

theorem processLocalOperation_connection (w : World) (op : IMapOperation) :
    (processLocalOperation w op).1.map.connection = w.map.connection := by
  rw [processLocalOperation_fst_map]
  exact (processOperation_frame _ op).1

theorem processRemoteOperation_frame (w : World) (msg : ISequencedMessage) :
    (processRemoteOperation w msg).1.map.sequenceNumber = w.map.sequenceNumber
    ∧ (processRemoteOperation w msg).1.map.connection = w.map.connection
    ∧ (processRemoteOperation w msg).2 ≠ some .SequenceGap := by
  unfold processRemoteOperation
  cases hc : w.map.connection with
  | none => simp [hc]
  | some conn =>
      by_cases hid : msg.clientId = conn.clientId
      · cases hl : w.map.localOps with
        | nil => simp [hc, hid, hl]
        | cons m rest =>
            by_cases hcs : m.clientSequenceNumber = msg.clientSequenceNumber <;>
              simp [hc, hid, hl, hcs]
      · have h := processOperation_frame w.map msg.op
        simp [hc, hid, h.1, h.2.1, h.2.2.2]

theorem processRemoteMessage_connection (w : World) (msg : ISequencedMessage) :
    (processRemoteMessage w msg).1.map.connection = w.map.connection := by
  unfold processRemoteMessage
  by_cases hs : msg.sequenceNumber = w.map.sequenceNumber + 1
  · by_cases ht : msg.type = OperationType
    · simp only [hs, if_pos, ht]
      rw [(processRemoteOperation_frame _ msg).2.1]
    · simp [hs, ht]
  · simp [hs]

theorem set_connection (w : World) (k : String) (v : UserValue) :
    (set w k v).1.map.connection = w.map.connection := by
  cases v <;> simp [set, processLocalOperation_connection]

theorem delete_connection (w : World) (k : String) :
    (delete w k).1.map.connection = w.map.connection := by
  simp [delete, processLocalOperation_connection]

theorem clear_connection (w : World) :
    (clear w).1.map.connection = w.map.connection := by
  simp [clear, processLocalOperation_connection]

theorem resumePending_connection (w : World) :
    (resumePending w).map.connection = w.map.connection := by
  unfold resumePending
  cases hp : w.pending with
  | nil => rfl
  | cons m rest => cases hv : m.op.value <;> simp [hp, hv]

theorem runAction_connection_eq (w : World) (a : MapAction) (ha : a.isAttach = false) :
    (runAction w a).map.connection = w.map.connection := by
  cases a with
  | setA k v => exact set_connection w k v
  | deleteA k => exact delete_connection w k
  | clearA => exact clear_connection w
  | attachA r => simp [MapAction.isAttach] at ha
  | deliverA m => exact processRemoteMessage_connection w m
  | resumeA => exact resumePending_connection w

theorem runAction_attach_isSome (w : World) (r : List String) :
    ((runAction w (.attachA r)).map.connection).isSome = true := by
  simp only [runAction, attach]
  split <;> simp [foldl_submit_map]

theorem runAction_isSome (w : World) (a : MapAction)
    (h : (w.map.connection).isSome = true) :
    ((runAction w a).map.connection).isSome = true := by
  cases a with
  | attachA r => exact runAction_attach_isSome w r
  | setA k v => rw [runAction_connection_eq w (.setA k v) rfl]; exact h
  | deleteA k => rw [runAction_connection_eq w (.deleteA k) rfl]; exact h
  | clearA => rw [runAction_connection_eq w .clearA rfl]; exact h
  | deliverA m => rw [runAction_connection_eq w (.deliverA m) rfl]; exact h
  | resumeA => rw [runAction_connection_eq w .resumeA rfl]; exact h

theorem connection_isSome_runTrace (tr : List MapAction) :
    ∀ w : World, (w.map.connection).isSome = true →
      ((runTrace w tr).map.connection).isSome = true := by
  induction tr with
  | nil => intro w h; exact h
  | cons a tl ih => intro w h; exact ih _ (runAction_isSome w a h)

theorem never_attached_iff (tr : List MapAction) :
    ∀ w : World, w.map.connection = none →
      (isLocal (runTrace w tr).map = true ↔ tr.any MapAction.isAttach = false) := by
  induction tr with
  | nil => intro w h; simp [runTrace, isLocal, h]
  | cons a tl ih =>
      intro w h
      by_cases ha : a.isAttach = true
      · have h1 : ((runTrace (runAction w a) tl).map.connection).isSome = true := by
          apply connection_isSome_runTrace
          cases a with
          | attachA r => exact runAction_attach_isSome w r
          | setA k v => simp [MapAction.isAttach] at ha
          | deleteA k => simp [MapAction.isAttach] at ha
          | clearA => simp [MapAction.isAttach] at ha
          | deliverA m => simp [MapAction.isAttach] at ha
          | resumeA => simp [MapAction.isAttach] at ha
        have h2 : isLocal (runTrace (runAction w a) tl).map = false := by
          unfold isLocal
          cases hco : (runTrace (runAction w a) tl).map.connection with
          | none => rw [hco] at h1; simp at h1
          | some c => rfl
        have h3 : runTrace w (a :: tl) = runTrace (runAction w a) tl := rfl
        rw [h3, h2]
        simp [List.any_cons, ha]
      · have ha' : a.isAttach = false := by
          cases hb : a.isAttach
          · rfl
          · exact absurd hb ha
        have hconn : (runAction w a).map.connection = none := by
          rw [runAction_connection_eq w a ha']; exact h
        have h3 : runTrace w (a :: tl) = runTrace (runAction w a) tl := rfl
        rw [h3]
        rw [ih (runAction w a) hconn]
        simp [List.any_cons, ha']

theorem blobSeparation_applyMut (r : Nat) (d : List (String × IMapValue))
    (t : Store.MapStore) (a : Store.MutAction)
    (h : Store.blobSeparation r d t) :
    Store.blobSeparation r d (Store.applyMut t a) := by
  obtain ⟨h1, h2, h3, h4⟩ := h
  have hr : ¬ (r = t.dataRef) := fun he => h2 he.symm
  cases a with
  | setA k v =>
      exact ⟨by simpa [Store.applyMut, Store.setCore, Store.Heap.write, Store.Heap.read, hr] using h1,
             h2, h3, h4⟩
  | deleteA k =>
      exact ⟨by simpa [Store.applyMut, Store.deleteCore, Store.Heap.write, Store.Heap.read, hr] using h1,
             h2, h3, h4⟩
  | clearA =>
      have hrs : ¬ (r = t.heap.size) := Nat.ne_of_lt h3
      refine ⟨?_, ?_, ?_, ?_⟩
      · simpa [Store.applyMut, Store.clearCore, Store.Heap.alloc, Store.Heap.read, hrs] using h1
      · simp [Store.applyMut, Store.clearCore, Store.Heap.alloc]
        exact (Nat.ne_of_lt h3).symm
      · simp [Store.applyMut, Store.clearCore, Store.Heap.alloc]
        exact Nat.lt_succ_of_lt h3
      · simp [Store.applyMut, Store.clearCore, Store.Heap.alloc]

theorem blobSeparation_applyMuts (r : Nat) (d : List (String × IMapValue))
    (acts : List Store.MutAction) :
    ∀ t : Store.MapStore, Store.blobSeparation r d t →
      Store.blobSeparation r d (Store.applyMuts t acts) := by
  induction acts with
  | nil => intro t h; exact h
  | cons a tl ih => intro t h; exact ih _ (blobSeparation_applyMut r d t a h)

/-!  The claims. -/

/-- C1: an inbound sequenced operation message whose `clientId` is the
engine's own: when its client sequence number equals that of the Operation
Log's head, the head is popped and nothing else changes — Map State, the
event stream and the console log are untouched, so the operation is never
reapplied on top of its optimistic apply; otherwise (mismatching head or
empty log) only a duplicate-ack warning is logged and neither the log nor
Map State nor the events change.  No branch fails. -/
theorem own_ack_retires_head_without_reapply
    (w : World) (conn : Connection) (msg : ISequencedMessage)
    (hc : w.map.connection = some conn) (hid : msg.clientId = conn.clientId) :
    (∀ m rest, w.map.localOps = m :: rest →
        m.clientSequenceNumber = msg.clientSequenceNumber →
        processRemoteOperation w msg =
          ({ w with map := { w.map with localOps := rest } }, none))
    ∧ ((∀ m rest, w.map.localOps = m :: rest →
          m.clientSequenceNumber ≠ msg.clientSequenceNumber) →
        processRemoteOperation w msg =
          ({ w with map := { w.map with consoleLog := w.map.consoleLog ++
              ["Duplicate ack received " ++ toString msg.clientSequenceNumber] } }, none)) := by
  constructor
  · intro m rest hlo hcs
    simp [processRemoteOperation, hc, hid, hlo, hcs]
  · intro hne
    cases hlo : w.map.localOps with
    | nil => simp [processRemoteOperation, hc, hid, hlo]
    | cons m rest => simp [processRemoteOperation, hc, hid, hlo, hne m rest hlo]

/-- C1 witness: a concrete attached map with one pending local op receives
its own echo; the log head is retired and the world is otherwise
untouched. -/
theorem own_ack_retires_head_without_reapply_check :
    processRemoteOperation wAck msgEcho =
      ({ wAck with map := { wAck.map with localOps := [] } }, none) :=
  (own_ack_retires_head_without_reapply wAck
      { clientId := "client-a", existing := false } msgEcho rfl rfl).1 mAck [] rfl rfl

/-- C2: read-your-writes — after a local `set(k, v)` a `get(k)` returns
`v`; after a local `delete(k)` a `get(k)` returns absent; after a local
`clear()` a `get` of any key returns absent.  Quantified over every engine
state, hence over all sequences of local operations. -/
theorem read_your_writes (w : World) (k : String) (v : UserValue) :
    (get (set w k v).1.map k).1 = .ok (some v)
    ∧ (get (delete w k).1.map k).1 = .ok none
    ∧ (∀ k2, (get (clear w).1.map k2).1 = .ok none) := by
  refine ⟨?_, ?_, ?_⟩
  · cases v with
    | plain j =>
        have hpc : ¬ (ValueTypePlain = ValueTypeCollaborative) := by decide
        simp [set, processLocalOperation_fst_map, processOperation_set_eq, setCore, get,
              lookupKey_setKey_self, hpc]
    | collabObject co =>
        simp [set, processLocalOperation_fst_map, processOperation_set_eq, setCore, get,
              lookupKey_setKey_self, asCollabMapValue]
  · simp [delete, processLocalOperation_fst_map, processOperation_delete_eq, deleteCore, get,
          lookupKey_removeKey_self]
  · intro k2
    simp [clear, processLocalOperation_fst_map, processOperation_clear_eq, clearCore, get,
          lookupKey]

/-- C3: `processRemoteMessage` fails with `SequenceGap` — before mutating
anything — on every inbound message whose sequence number is not exactly
the current one plus one; when the adjacency precondition holds the
`SequenceGap` branch is unreachable and the engine's sequence number is
updated to the message's. -/
theorem remote_message_sequence_gap (w : World) (msg : ISequencedMessage) :
    (msg.sequenceNumber ≠ w.map.sequenceNumber + 1 →
        processRemoteMessage w msg = (w, some .SequenceGap))
    ∧ (msg.sequenceNumber = w.map.sequenceNumber + 1 →
        (processRemoteMessage w msg).2 ≠ some .SequenceGap
        ∧ (processRemoteMessage w msg).1.map.sequenceNumber = msg.sequenceNumber) := by
  constructor
  · intro h
    simp [processRemoteMessage, h]
  · intro h
    unfold processRemoteMessage
    by_cases ht : msg.type = OperationType
    · simp only [h, ht, eq_self_iff_true, if_true]
      refine ⟨(processRemoteOperation_frame _ _).2.2, ?_⟩
      rw [(processRemoteOperation_frame _ _).1]
    · simp [h, ht]

/-- C3 witness: a gapped message (5 after 0) is rejected with `SequenceGap`
and the state is untouched; an adjacent message (1 after 0) is accepted and
the sequence number becomes 1. -/
theorem remote_message_sequence_gap_check :
    processRemoteMessage wAck msgGapped = (wAck, some .SequenceGap)
    ∧ (processRemoteMessage wAck msgEcho).1.map.sequenceNumber = msgEcho.sequenceNumber :=
  ⟨(remote_message_sequence_gap wAck msgGapped).1 (by decide),
   ((remote_message_sequence_gap wAck msgEcho).2 (by decide)).2⟩

/-- C4: the claim that no later message overtakes a suspended
reference-carrying Set fails on the code (the source's own TODO: "chain
these requests given the attach is async").  Concretely: on an attached
map, `set("a", N)` with `N` a still-local nested object parks its
submission at `await N.attach(...)`; a following `set("b", 2)` submits
synchronously; when the parked submission resumes, the transport has
received client sequence numbers `[1, 0]` although the issue order (the
Operation Log) is `[0, 1]`. -/
theorem later_set_overtakes_pending_reference_set :
    w4d.map.localOps.map (fun m => m.clientSequenceNumber) = [0, 1]
    ∧ w4c.outbox.map (fun m => m.clientSequenceNumber) = [1]
    ∧ w4c.pending.map (fun m => m.clientSequenceNumber) = [0]
    ∧ w4d.outbox.map (fun m => m.clientSequenceNumber) = [1, 0] := by decide

/-- C5: a second `attach` fails with the already-attached error (the
`assert.ok(!this.connection.existing)` right after connect) and is returned
to the caller with the engine state — data, log, sequence number, events —
intact; and `attach` can only succeed when the map was still in the local
state.  The hypothesis records the connect contract: a connected map's
document exists at the service. -/
theorem attach_already_attached (w : World) (registry : List String)
    (hinv : w.map.connection.isSome = true →
      w.services.docs.contains w.map.id = true) :
    (w.map.connection.isSome = true →
        (attach w registry).2 = some .AlreadyAttached
        ∧ (attach w registry).1.map.data = w.map.data
        ∧ (attach w registry).1.map.localOps = w.map.localOps
        ∧ (attach w registry).1.map.sequenceNumber = w.map.sequenceNumber
        ∧ (attach w registry).1.map.events = w.map.events)
    ∧ (∀ w2, attach w registry = (w2, none) → w.map.connection = none) := by
  constructor
  · intro hs
    have hmem : w.map.id ∈ w.services.docs := by simpa using hinv hs
    simp [attach, Services.connect, hmem]
  · intro w2 heq
    by_cases hmem : w.map.id ∈ w.services.docs
    · have herr : (attach w registry).2 = some .AlreadyAttached := by
        simp [attach, Services.connect, hmem]
      rw [heq] at herr
      simp at herr
    · cases hco : w.map.connection with
      | none => rfl
      | some c =>
          have hct := hinv (by rw [hco]; rfl)
          simp at hct
          exact absurd hct hmem

/-- C5 witness: attaching the already-attached `wAttached` a second time
returns the already-attached error. -/
theorem attach_already_attached_check :
    (attach wAttached []).2 = some .AlreadyAttached :=
  ((attach_already_attached wAttached [] (by decide)).1 (by decide)).1

/-- C6: the claim that a successful `attach` submits every Operation Log
entry to the transport in log order fails on the code by the same
unchained-submission slip as C4 (the no-entry-removed half does hold).
Concretely: a local map issues `set("a", N)` (`N` still local) then
`set("b", 2)`; `attach` drains the log — the first entry's submission parks
at the nested attach, the second reaches the transport first, so the
transport sees `[1, 0]` while the log keeps `[0, 1]`. -/
theorem attach_drain_submits_out_of_log_order :
    w6c.outbox = []
    ∧ w6d.map.localOps.map (fun m => m.clientSequenceNumber) = [0, 1]
    ∧ w6d.outbox.map (fun m => m.clientSequenceNumber) = [1]
    ∧ w6e.outbox.map (fun m => m.clientSequenceNumber) = [1, 0] := by decide

/-- C7: the blob produced by `snapshot()` is a value copy — after any
sequence of Map State mutations (set/delete/clear, local or remote all end
in the three core primitives) performed after the blob was produced, the
blob's dictionary still holds exactly the entries Map State had at snapshot
time, and its sequence number is the one captured. -/
theorem snapshot_blob_unaffected_by_later_mutations
    (s : Store.MapStore) (acts : List Store.MutAction)
    (hs : s.dataRef < s.heap.size) :
    (Store.applyMuts (Store.writeSnapshot s).2 acts).heap.read
        (Store.writeSnapshot s).1.snapshot = s.heap.read s.dataRef
    ∧ (Store.writeSnapshot s).1.sequenceNumber = s.sequenceNumber := by
  have hsep : Store.blobSeparation s.heap.size (s.heap.read s.dataRef)
      (Store.writeSnapshot s).2 := by
    refine ⟨?_, ?_, ?_, ?_⟩
    · simp [Store.writeSnapshot, Store.Heap.alloc, Store.Heap.read]
    · simp [Store.writeSnapshot, Store.Heap.alloc]
      exact Nat.ne_of_lt hs
    · simp [Store.writeSnapshot, Store.Heap.alloc]
    · simp [Store.writeSnapshot, Store.Heap.alloc]
      exact Nat.lt_succ_of_lt hs
  exact ⟨(blobSeparation_applyMuts _ _ acts _ hsep).1, rfl⟩

/-- C7 witness: a concrete one-entry store at sequence number 5, snapshot
taken, then overwritten, deleted, cleared and re-populated — the blob still
reads the original entries and sequence number. -/
theorem snapshot_blob_unaffected_by_later_mutations_check :
    (Store.applyMuts (Store.writeSnapshot store7).2 acts7).heap.read
        (Store.writeSnapshot store7).1.snapshot = store7.heap.read store7.dataRef
    ∧ (Store.writeSnapshot store7).1.sequenceNumber = store7.sequenceNumber :=
  snapshot_blob_unaffected_by_later_mutations store7 acts7 (by decide)

/-- C8 counterexample: the claim that every public operation — including
`snapshot` — suspends at entry awaiting the initial load is false:
`snapshot` carries no load gate, and invoked while the initial load of an
existing document (stored blob at sequence number 5) is still in flight it
serializes the pre-load Map State `{ sequenceNumber := 0, snapshot := {} }`,
which differs from what it returns after the load. -/
theorem snapshot_skips_initial_load_gate :
    LoadGate.awaitsInitialLoad snapshotGate = false
    ∧ LoadGate.observe snapshotGate preLoad8 loaded8 =
        { sequenceNumber := 0, snapshot := [] }
    ∧ LoadGate.observe snapshotGate preLoad8 loaded8 ≠ snapshot loaded8 := by decide

/-- C8 as amended: `get`, `has`, `keys`, `set`, `delete` and `clear` each
suspend once at entry awaiting the initial load — their bodies observe the
loaded state — while `snapshot` does not await the initial load and its
body observes the state at call time. -/
theorem public_ops_await_initial_load (k : String) (v : UserValue) :
    LoadGate.awaitsInitialLoad (getGate k) = true
    ∧ LoadGate.awaitsInitialLoad (hasGate k) = true
    ∧ LoadGate.awaitsInitialLoad keysGate = true
    ∧ LoadGate.awaitsInitialLoad (setGate k v) = true
    ∧ LoadGate.awaitsInitialLoad (deleteGate k) = true
    ∧ LoadGate.awaitsInitialLoad clearGate = true
    ∧ LoadGate.awaitsInitialLoad snapshotGate = false
    ∧ (∀ pre loaded : MapObj, LoadGate.observe (getGate k) pre loaded = get loaded k)
    ∧ (∀ pre loaded : World, LoadGate.observe (setGate k v) pre loaded = set loaded k v)
    ∧ (∀ pre loaded : MapObj, LoadGate.observe snapshotGate pre loaded = snapshot pre) :=
  ⟨rfl, rfl, rfl, rfl, rfl, rfl, rfl,
   fun _ _ => rfl, fun _ _ => rfl, fun _ _ => rfl⟩

/-- C9: `isLocal` is true exactly when the map has never been attached: a
map loaded from an existing document begins attached (`isLocal` false), and
along any action trace from a freshly created local map, `isLocal` stays
true precisely until the first `attach` call. -/
theorem isLocal_iff_never_attached (id : String) (svc : Services)
    (registry : List String) (stored : Option ISnapshot) (tr : List MapAction) :
    isLocal (load id svc registry stored).map = false
    ∧ (isLocal (runTrace (World.create id svc) tr).map = true
        ↔ tr.any MapAction.isAttach = false) :=
  ⟨rfl, never_attached_iff tr (World.create id svc) rfl⟩

/-- C10: an inbound sequenced message of a non-operation kind updates only
the sequence number and minimum sequence number: Map State, the Operation
Log, the client sequence counter, the nested object cache, the event stream
and the outbox are all left exactly as they were, and no error occurs. -/
theorem non_operation_message_updates_only_sequence_numbers
    (w : World) (msg : ISequencedMessage)
    (hseq : msg.sequenceNumber = w.map.sequenceNumber + 1)
    (hkind : msg.type ≠ OperationType) :
    processRemoteMessage w msg =
      ({ w with map := { w.map with
            sequenceNumber := msg.sequenceNumber
            minimumSequenceNumber := msg.minimumSequenceNumber } }, none) := by
  simp [processRemoteMessage, hseq, hkind]

/-- C10 witness: a concrete non-operation control message with the correct
next sequence number only moves the two sequence numbers. -/
theorem non_operation_message_updates_only_sequence_numbers_check :
    processRemoteMessage wAck msgNoop =
      ({ wAck with map := { wAck.map with
            sequenceNumber := msgNoop.sequenceNumber
            minimumSequenceNumber := msgNoop.minimumSequenceNumber } }, none) :=
  non_operation_message_updates_only_sequence_numbers wAck msgNoop (by decide) (by decide)

end MapCrdt
